import Mathlib

/-!
Shallow embedding of the working-memory subsystem of the
memoryManagementSystem repository (Python / FastAPI).

Modelled source files:
* src/memory/redis_store.py   (ShortTermStore: TTL tier over Redis)
* src/memory/mongo_longterm.py (LongTermStore: durable tier over MongoDB)
* src/memory/service.py       (MemoryService.persist_working_memory)
* src/api/routers/short_term.py, src/api/routers/long_term.py (routes)

Modelling conventions:
* Opaque JSON payload values are modelled as `String` (the code never
  inspects them).  Python dicts are modelled as association lists with
  Python dict semantics (assignment replaces in place, new keys append).
* Timestamps are modelled as `Nat` at minute precision: the code stores
  times as strftime("%d-%m-%Y %H:%M") strings and re-parses them with the
  same format, and the string form is a faithful encoding of the
  minute-precision instant, so strftime/strptime round-trip is identity
  at this abstraction.
* A Redis key that has expired is simply absent from the primary map:
  an index entry whose id has no primary entry is a stale (expired) entry.
* Option-typed document fields model JSON null / absent fields; for
  documents written with model_dump(exclude_none=True), `none` means the
  field is absent from the stored document.
-/

/-- Python dict lookup on an association list (first binding wins;
dict keys are unique so at most one binding exists per key). -/
def alookup {α : Type} (l : List (String × α)) (k : String) : Option α :=
  match l with
  | [] => none
  | (k2, v) :: rest => if k2 = k then some v else alookup rest k

/-- Python dict assignment d[k] = v: replace the binding in place if the key
is present, otherwise append the new binding at the end. -/
def aset {α : Type} (l : List (String × α)) (k : String) (v : α) : List (String × α) :=
  match l with
  | [] => [(k, v)]
  | (k2, v2) :: rest => if k2 = k then (k, v) :: rest else (k2, v2) :: aset rest k v

/-- Python dict.update(u): assign every binding of u in order. -/
def aupdate {α : Type} (l u : List (String × α)) : List (String × α) :=
  u.foldl (fun acc p => aset acc p.1 p.2) l

/-- Python dict.pop(k, None): remove the binding for k (dict keys are
unique, so removing every binding with that key is the same operation). -/
def aerase {α : Type} (l : List (String × α)) (k : String) : List (String × α) :=
  match l with
  | [] => []
  | (k2, v) :: rest => if k2 = k then aerase rest k else (k2, v) :: aerase rest k

/-- Sequential dict.pop over a list of keys
(the `for key_to_remove in update.remove_keys` loop). -/
def aeraseAll {α : Type} (l : List (String × α)) (ks : List String) : List (String × α) :=
  ks.foldl (fun acc k => aerase acc k) l

/-- ShortTermType enum from src/memory/types.py. -/
inductive ShortTermType where
  | cache
  | working
deriving DecidableEq, Repr

/-- LongTermType enum from src/memory/types.py. -/
inductive LongTermType where
  | semantic
  | episodic
  | procedural
  | working_persisted
deriving DecidableEq, Repr

/-- The value dictionary stored at a Redis primary key
stm:{type}:{agent}:{id} (see ShortTermStore.create in redis_store.py).
Cache records carry `none` / `[]` in the working-only fields, matching the
cache payload shape which simply lacks those keys. -/
structure RedisDoc where
  id : String
  agent_id : String
  memory : List (String × String)
  memory_type : ShortTermType
  ttl : Int
  message_id : String
  run_id : Option String
  workflow_id : Option String
  stages : List String
  current_stage : Option String
  context_log_summary : Option String
  user_query : Option String
  created_at : Nat
  updated_at : Option Nat
deriving DecidableEq, Repr

/-- A live Redis primary entry: the stored document together with the EX
(seconds) expiry that was supplied at the last SET of the key. -/
structure RedisEntry where
  doc : RedisDoc
  exp : Int
deriving DecidableEq, Repr

/-- The slice of Redis state belonging to one (memory_type, agent_id) pair:
the sorted-set index stmidx:{type}:{agent} (ids listed in zrevrange order,
newest first) and the primary keys that are still live.  An id present in
`index` but absent from `primary` is a stale index entry whose primary
value has expired. -/
structure Bucket where
  index : List String
  primary : List (String × RedisEntry)
deriving DecidableEq, Repr

/-- ShortTermMemoryUpdate request model from src/memory/types.py. -/
structure ShortTermMemoryUpdate where
  agent_id : String
  message_id : String
  memory_type : ShortTermType
  memory_updates : List (String × String)
  remove_keys : List String
  workflow_id : Option String
  stages : Option (List String)
  current_stage : Option String
  context_log_summary : Option String
  user_query : Option String
  ttl : Option Int
deriving DecidableEq, Repr

/-- ShortTermMemory input model from src/memory/types.py
(message_id is already assigned by the service before create). -/
structure ShortTermMemory where
  agent_id : String
  memory : List (String × String)
  ttl : Int
  message_id : String
  run_id : Option String
  memory_type : ShortTermType
  workflow_id : Option String
  stages : List String
  current_stage : Option String
  context_log_summary : Option String
  user_query : Option String
deriving DecidableEq, Repr

/-- A filter test of get_many: `if f and data.get(field) != f: continue`.
The filter is skipped when the supplied value is falsy (None or the empty
string); otherwise the record survives only if the field equals it. -/
def passStrFilter (f : Option String) (v : Option String) : Bool :=
  match f with
  | none => true
  | some fv => if fv = "" then true else v == some fv

/-- Conjunction of the three field filters of ShortTermStore.get_many. -/
def docPasses (mid rid wid : Option String) (d : RedisDoc) : Bool :=
  passStrFilter mid (some d.message_id) &&
  passStrFilter rid d.run_id &&
  passStrFilter wid d.workflow_id

/-- The clean response dict built by ShortTermStore.get_many.  The nested
metadata dict is flattened into the two trailing fields: `created_at`
is metadata["created_at"], and `updated_at` is metadata.get("updated_at")
(present in the Python dict only when truthy, hence `Option`).  Note the
clean dict has no top-level "created_at" or "id" key. -/
structure WMView where
  agent_id : String
  memory : List (String × String)
  memory_type : ShortTermType
  ttl : Int
  message_id : String
  run_id : Option String
  workflow_id : Option String
  stages : List String
  current_stage : Option String
  context_log_summary : Option String
  user_query : Option String
  created_at : Nat
  updated_at : Option Nat
deriving DecidableEq, Repr

/-- Build the clean_result dict of get_many from a live stored document. -/
def viewOf (d : RedisDoc) : WMView :=
  { agent_id := d.agent_id
    memory := d.memory
    memory_type := d.memory_type
    ttl := d.ttl
    message_id := d.message_id
    run_id := d.run_id
    workflow_id := d.workflow_id
    stages := d.stages
    current_stage := d.current_stage
    context_log_summary := d.context_log_summary
    user_query := d.user_query
    created_at := d.created_at
    updated_at := d.updated_at }

/-- The loop body of ShortTermStore.get_many over the index ids: collect the
clean views of the surviving records (in index order) and the stale ids to
prune (also in index order). -/
def getManyAux (primary : List (String × RedisEntry)) (mid rid wid : Option String) :
    List String → (List WMView × List String)
  | [] => ([], [])
  | id :: rest =>
    match alookup primary id with
    | none =>
      let pr := getManyAux primary mid rid wid rest
      (pr.1, id :: pr.2)
    | some e =>
      let pr := getManyAux primary mid rid wid rest
      if docPasses mid rid wid e.doc then (viewOf e.doc :: pr.1, pr.2) else (pr.1, pr.2)

/-- ShortTermStore.get_many (redis_store.py lines 160-238): enumerate the
index newest-first, skip and record expired ids, filter the survivors,
then zrem the stale ids from the index (only if any were found). -/
def ShortTermStore.get_many (b : Bucket) (mid rid wid : Option String) :
    List WMView × Bucket :=
  let pr := getManyAux b.primary mid rid wid b.index
  if pr.2 = [] then (pr.1, b)
  else (pr.1, { b with index := b.index.filter (fun i => !(pr.2.contains i)) })

/-- The scan of ShortTermStore.update: walk the index ids, skip expired
entries, and return the first live entry whose message_id matches. -/
def findLive (primary : List (String × RedisEntry)) (mid : String) :
    List String → Option (String × RedisEntry)
  | [] => none
  | id :: rest =>
    match alookup primary id with
    | none => findLive primary mid rest
    | some e => if e.doc.message_id = mid then some (id, e) else findLive primary mid rest

/-- Truthiness-guarded field overwrite used by the working-memory branch of
ShortTermStore.update: `if update.f and update.f != ""` - the supplied value
replaces the stored one only when it is a non-empty string. -/
def overwriteStr (new : Option String) (old : Option String) : Option String :=
  match new with
  | none => old
  | some s => if s = "" then old else some s

/-- Apply the in-place mutations of ShortTermStore.update to the matched
document: dict update with memory_updates, then pop each of remove_keys,
stamp updated_at with the current time, and (for working memory only)
overwrite the workflow fields that were supplied as truthy values.
The stored ttl field is not touched. -/
def applyShortTermUpdate (u : ShortTermMemoryUpdate) (d : RedisDoc) (now : Nat) : RedisDoc :=
  let mem := aeraseAll (aupdate d.memory u.memory_updates) u.remove_keys
  let base := { d with memory := mem, updated_at := some now }
  if u.memory_type = ShortTermType.working then
    { base with
      workflow_id := overwriteStr u.workflow_id d.workflow_id
      stages := match u.stages with
        | none => d.stages
        | some l => if l.length > 0 then l else d.stages
      current_stage := overwriteStr u.current_stage d.current_stage
      context_log_summary := overwriteStr u.context_log_summary d.context_log_summary
      user_query := overwriteStr u.user_query d.user_query }
  else base

/-- The expiry chosen by ShortTermStore.update for the rewriting SET:
`update.ttl` when it is truthy (nonzero), positive and different from the
default 600, otherwise the ttl value stored in the record. -/
def chooseTtl (uttl : Option Int) (stored : Int) : Int :=
  match uttl with
  | none => stored
  | some t => if t ≠ 0 ∧ t > 0 ∧ t ≠ 600 then t else stored

/-- ShortTermStore.update (redis_store.py lines 99-158): linear scan for the
first live record whose message_id matches; on a hit, mutate the document,
re-SET the primary key with the chosen expiry, and return the document;
otherwise return None and leave the state untouched (expired entries seen
during the scan are not pruned here). -/
def ShortTermStore.update (b : Bucket) (u : ShortTermMemoryUpdate) (now : Nat) :
    Option RedisDoc × Bucket :=
  match findLive b.primary u.message_id b.index with
  | none => (none, b)
  | some (id, e) =>
    let d := applyShortTermUpdate u e.doc now
    (some d, { b with primary := aset b.primary id { doc := d, exp := chooseTtl u.ttl e.doc.ttl } })

/-- ShortTermStore.create (redis_store.py lines 24-97): build the payload
(cache payloads lack the workflow fields; modelled as none / []), SET the
primary key with EX = m.ttl, and zadd the fresh id with the current
timestamp as score, which places it first in zrevrange order. -/
def ShortTermStore.create (b : Bucket) (m : ShortTermMemory) (id : String) (now : Nat) :
    RedisDoc × Bucket :=
  let d : RedisDoc :=
    if m.memory_type = ShortTermType.cache then
      { id := id, agent_id := m.agent_id, memory := m.memory
        memory_type := m.memory_type, ttl := m.ttl, message_id := m.message_id
        run_id := m.run_id, workflow_id := none, stages := [], current_stage := none
        context_log_summary := none, user_query := none
        created_at := now, updated_at := none }
    else
      { id := id, agent_id := m.agent_id, memory := m.memory
        memory_type := m.memory_type, ttl := m.ttl, message_id := m.message_id
        run_id := m.run_id, workflow_id := m.workflow_id, stages := m.stages
        current_stage := m.current_stage, context_log_summary := m.context_log_summary
        user_query := m.user_query, created_at := now, updated_at := none }
  (d, { index := id :: b.index, primary := aset b.primary id { doc := d, exp := m.ttl } })

/-- The documents of a bucket that are still live (their primary key has not
expired), enumerated in index order.  This is the set of records a read can
observe. -/
def liveDocs (b : Bucket) : List RedisDoc :=
  b.index.filterMap (fun id => (alookup b.primary id).map RedisEntry.doc)

/-- A document of a MongoDB long-term collection.  Option-typed fields model
JSON fields that may be absent (`none` = the field is not present in the
stored document, as produced by model_dump(exclude_none=True)). -/
structure MongoDoc where
  id : String
  agent_id : String
  memory : List (String × String)
  memory_type : LongTermType
  message_id : String
  run_id : Option String
  workflow_id : Option String
  stages : Option (List String)
  current_stage : Option String
  context_log_summary : Option String
  user_query : Option String
  normalized_text : Option String
  subtype : Option String
  conversation_id : Option String
  name : Option String
  status : Option String
  config : List (String × String)
  created_at : Option Nat
  updated_at : Option Nat
  persisted_at : Option Nat
  original_ttl : Option Int
  tags : Option (List String)
  version : Option Int
deriving DecidableEq, Repr

/-- The four collections of LongTermStore (the COLS table of
mongo_longterm.py): lt_semantic, lt_episodic, lt_procedural and
lt_working_persisted, each a list of documents in insertion order. -/
structure MongoState where
  semantic : List MongoDoc
  episodic : List MongoDoc
  procedural : List MongoDoc
  working_persisted : List MongoDoc
deriving DecidableEq, Repr

/-- Collection selected by a memory_type, mirroring COLS[...]. -/
def selectCol (st : MongoState) : LongTermType → List MongoDoc
  | LongTermType.semantic => st.semantic
  | LongTermType.episodic => st.episodic
  | LongTermType.procedural => st.procedural
  | LongTermType.working_persisted => st.working_persisted

/-- Replace the collection selected by a memory_type. -/
def setCol (st : MongoState) (t : LongTermType) (col : List MongoDoc) : MongoState :=
  match t with
  | LongTermType.semantic => { st with semantic := col }
  | LongTermType.episodic => { st with episodic := col }
  | LongTermType.procedural => { st with procedural := col }
  | LongTermType.working_persisted => { st with working_persisted := col }

/-- LongTermMemoryUpdateStorage: the update request consumed by
LongTermStore.update.  The class body is not present under src/, so its
field set is reconstructed from its two use sites (its construction in
MemoryService.update_long_term and its reads in LongTermStore.update);
only the fields LongTermStore.update reads are modelled. -/
structure LongTermMemoryUpdateStorage where
  agent_id : String
  message_id : String
  memory_type : LongTermType
  memory_updates : List (String × String)
  remove_keys : List String
  normalized_text : Option String
  subtype : Option String
  conversation_id : Option String
  name : Option String
  status : Option String
  config_updates : Option (List (String × String))
deriving DecidableEq, Repr

/-- WorkingMemoryPersistedUpdate request model from src/memory/types.py. -/
structure WorkingMemoryPersistedUpdate where
  agent_id : String
  message_id : String
  memory_updates : List (String × String)
  remove_keys : List String
  workflow_id : Option String
  stages : Option (List String)
  current_stage : Option String
  context_log_summary : Option String
  user_query : Option String
  tags : Option (List String)
deriving DecidableEq, Repr

/-- The exact-match query of the durable updates:
{"agent_id": u.agent_id, "message_id": u.message_id}. -/
def mongoMatches (a mid : String) (d : MongoDoc) : Bool :=
  d.agent_id == a && d.message_id == mid

/-- Apply f to the first document matching p (MongoDB update_one). -/
def mapFirst (p : MongoDoc → Bool) (f : MongoDoc → MongoDoc) : List MongoDoc → List MongoDoc
  | [] => []
  | d :: rest => if p d then f d :: rest else d :: mapFirst p f rest

/-- An `x is not None` guarded field overwrite of the durable updates
(unlike the TTL tier, an empty string does overwrite here). -/
def overwriteOptStr (new : Option String) (old : Option String) : Option String :=
  match new with
  | none => old
  | some s => some s

/-- The document transformation encoded by the update document that
LongTermStore.update builds (mongo_longterm.py lines 97-129): $set of
memory.{k} for memory_updates, $unset of memory.{k} for remove_keys,
the `is not None` guarded field overwrites, version := existing version
(default 1) + 1, and updated_at := current time - read as a flat
update-then-remove of the top-level payload map.  This flat reading equals
what MongoDB actually applies exactly when every touched key is dot-free
and no key stands in both memory_updates and remove_keys: a shared key
puts the same path in $set and $unset and MongoDB rejects the whole update
document (path conflict, nothing written), and a dotted key addresses a
nested path inside a payload value rather than a literal map key.  See
LongTermStore.update_checked for the refinement that makes the store's
acceptance of the update document explicit. -/
def applyLongTermUpdate (ex : MongoDoc) (u : LongTermMemoryUpdateStorage) (now : Nat) : MongoDoc :=
  { ex with
    memory := aeraseAll (aupdate ex.memory u.memory_updates) u.remove_keys
    normalized_text := overwriteOptStr u.normalized_text ex.normalized_text
    subtype := overwriteOptStr u.subtype ex.subtype
    conversation_id := overwriteOptStr u.conversation_id ex.conversation_id
    name := overwriteOptStr u.name ex.name
    status := overwriteOptStr u.status ex.status
    config := aupdate ex.config (u.config_updates.getD [])
    version := some (ex.version.getD 1 + 1)
    updated_at := some now }

/-- LongTermStore.update (mongo_longterm.py lines 81-135): find_one on the
(agent_id, message_id) query in the partition selected by memory_type;
None when absent (state untouched); otherwise update_one the matching
document and return the re-fetched document.  The application step here is
the flat reading of applyLongTermUpdate, which coincides with update_one
only on dot-free, non-overlapping key sets; LongTermStore.update_checked
refines this function with MongoDB's rejection of conflicting update
documents and delimits the region the flat payload model represents. -/
def LongTermStore.update (st : MongoState) (u : LongTermMemoryUpdateStorage) (now : Nat) :
    Option MongoDoc × MongoState :=
  let col := selectCol st u.memory_type
  match col.find? (mongoMatches u.agent_id u.message_id) with
  | none => (none, st)
  | some _ =>
    let col2 := mapFirst (mongoMatches u.agent_id u.message_id)
      (fun d => applyLongTermUpdate d u now) col
    (col2.find? (mongoMatches u.agent_id u.message_id), setCol st u.memory_type col2)

/-- The document transformation of LongTermStore.update_working_persisted
(mongo_longterm.py lines 153-177), under the same flat reading of the
$set / $unset memory.{k} paths as applyLongTermUpdate: it matches
update_one only when every touched key is dot-free and no key stands in
both memory_updates and remove_keys (a shared key is a MongoDB path
conflict that rejects the update whole, and a dotted key addresses a
nested path). -/
def applyWPUpdate (ex : MongoDoc) (u : WorkingMemoryPersistedUpdate) (now : Nat) : MongoDoc :=
  { ex with
    memory := aeraseAll (aupdate ex.memory u.memory_updates) u.remove_keys
    workflow_id := overwriteOptStr u.workflow_id ex.workflow_id
    stages := match u.stages with | none => ex.stages | some l => some l
    current_stage := overwriteOptStr u.current_stage ex.current_stage
    context_log_summary := overwriteOptStr u.context_log_summary ex.context_log_summary
    user_query := overwriteOptStr u.user_query ex.user_query
    tags := match u.tags with | none => ex.tags | some l => some l
    version := some (ex.version.getD 1 + 1)
    updated_at := some now }

/-- LongTermStore.update_working_persisted (mongo_longterm.py lines
137-189): same shape as the generic update, fixed to the
lt_working_persisted collection. -/
def LongTermStore.update_working_persisted (st : MongoState)
    (u : WorkingMemoryPersistedUpdate) (now : Nat) : Option MongoDoc × MongoState :=
  let col := st.working_persisted
  match col.find? (mongoMatches u.agent_id u.message_id) with
  | none => (none, st)
  | some _ =>
    let col2 := mapFirst (mongoMatches u.agent_id u.message_id)
      (fun d => applyWPUpdate d u now) col
    (col2.find? (mongoMatches u.agent_id u.message_id),
     { st with working_persisted := col2 })

/-- True when the key contains no dot: its update path memory.{key} then
addresses exactly that top-level key of the flat payload map.  A dotted
key addresses a nested path inside the (here opaque) payload values, which
the flat model does not represent. -/
def plainKey (k : String) : Bool := !(k.data.contains '.')

/-- Every payload key the update document of LongTermStore.update touches:
the $set keys from memory_updates, the $unset keys from remove_keys, and
the config.{k} $set keys from config_updates. -/
def mongoTouchedKeys (u : LongTermMemoryUpdateStorage) : List String :=
  u.memory_updates.map Prod.fst ++ u.remove_keys ++ (u.config_updates.getD []).map Prod.fst

/-- True when some key stands both in memory_updates and in remove_keys:
the update document then carries the same path memory.{k} in $set and in
$unset.  For dot-free keys, key equality is exactly MongoDB path equality. -/
def mongoMemConflict (u : LongTermMemoryUpdateStorage) : Bool :=
  u.remove_keys.any (fun k => (u.memory_updates.map Prod.fst).contains k)

/-- Outcome of a durable-tier update_one call as MongoDB decides it. -/
inductive MongoUpdateResult where
  | notFound
  | updated (doc : MongoDoc)
  | pathConflict
  | nestedPath
deriving DecidableEq, Repr

/-- LongTermStore.update with the backing store's acceptance of the update
document made explicit.  A find_one miss returns None (notFound, state
untouched).  When every touched key is dot-free: a key shared between
memory_updates and remove_keys puts the same path in $set and $unset, so
update_one raises a path-conflict error, nothing is written and the
exception propagates out of the store (pathConflict); otherwise the $set
and $unset maps are disjoint, their application equals the flat
update-then-remove of applyLongTermUpdate, and the re-fetched document is
returned (updated).  When a touched key contains a dot, the write (or the
prefix form of the conflict rejection) concerns nested locations inside
opaque payload values; the resulting state is outside this flat model and
is left unspecified (nestedPath, none). -/
def LongTermStore.update_checked (st : MongoState) (u : LongTermMemoryUpdateStorage)
    (now : Nat) : MongoUpdateResult × Option MongoState :=
  let col := selectCol st u.memory_type
  match col.find? (mongoMatches u.agent_id u.message_id) with
  | none => (MongoUpdateResult.notFound, some st)
  | some ex =>
    if (mongoTouchedKeys u).all plainKey then
      if mongoMemConflict u then (MongoUpdateResult.pathConflict, some st)
      else (MongoUpdateResult.updated (applyLongTermUpdate ex u now),
            some (setCol st u.memory_type (mapFirst (mongoMatches u.agent_id u.message_id)
              (fun d => applyLongTermUpdate d u now) col)))
    else (MongoUpdateResult.nestedPath, none)

/-- WorkingMemoryPersisted model from src/memory/types.py, as constructed by
MemoryService.persist_working_memory. -/
structure WorkingMemoryPersisted where
  agent_id : String
  memory : List (String × String)
  message_id : String
  run_id : Option String
  workflow_id : Option String
  stages : List String
  current_stage : Option String
  context_log_summary : Option String
  user_query : Option String
  created_at : Nat
  updated_at : Option Nat
  persisted_at : Nat
  original_ttl : Option Int
  tags : List String
  version : Int
deriving DecidableEq, Repr

/-- model_dump(exclude_none=True) of a WorkingMemoryPersisted, plus the
fresh internal storage id, as inserted by
LongTermStore.create_working_persisted (mongo_longterm.py lines 71-79).
Fields that are None in the pydantic model are absent from the document
(Option none); fields the model does not have are absent as well. -/
def WorkingMemoryPersisted.toDoc (m : WorkingMemoryPersisted) (docId : String) : MongoDoc :=
  { id := docId
    agent_id := m.agent_id
    memory := m.memory
    memory_type := LongTermType.working_persisted
    message_id := m.message_id
    run_id := m.run_id
    workflow_id := m.workflow_id
    stages := some m.stages
    current_stage := m.current_stage
    context_log_summary := m.context_log_summary
    user_query := m.user_query
    normalized_text := none
    subtype := none
    conversation_id := none
    name := none
    status := none
    config := []
    created_at := some m.created_at
    updated_at := m.updated_at
    persisted_at := some m.persisted_at
    original_ttl := m.original_ttl
    tags := some m.tags
    version := some m.version }

/-- LongTermStore.create_working_persisted: insert the dumped document into
the lt_working_persisted collection and return its fresh storage id. -/
def LongTermStore.create_working_persisted (st : MongoState)
    (m : WorkingMemoryPersisted) (docId : String) : String × MongoState :=
  (docId, { st with working_persisted := st.working_persisted ++ [m.toDoc docId] })

/-- Generic association-list lookup keyed by (ShortTermType, agent_id),
used for the whole-Redis state. -/
def blookup (l : List ((ShortTermType × String) × Bucket)) (k : ShortTermType × String) :
    Option Bucket :=
  match l with
  | [] => none
  | (k2, v) :: rest => if k2 = k then some v else blookup rest k

/-- Replace or insert a bucket in the whole-Redis state. -/
def bset (l : List ((ShortTermType × String) × Bucket)) (k : ShortTermType × String)
    (v : Bucket) : List ((ShortTermType × String) × Bucket) :=
  match l with
  | [] => [(k, v)]
  | (k2, v2) :: rest => if k2 = k then (k, v) :: rest else (k2, v2) :: bset rest k v

/-- The whole Redis keyspace (one bucket per (memory_type, agent_id)) and
the whole MongoDB database, as shared by the service. -/
structure MemoryState where
  redis : List ((ShortTermType × String) × Bucket)
  mongo : MongoState
deriving DecidableEq, Repr

/-- The bucket of a (memory_type, agent_id) pair; a pair with no keys at
all behaves as an empty bucket (empty index, no primaries). -/
def getBucket (s : MemoryState) (t : ShortTermType) (a : String) : Bucket :=
  (blookup s.redis (t, a)).getD { index := [], primary := [] }

/-- MemoryService.persist_working_memory output dict (service.py lines
601-651).  message_ids is `none` in the no_memories_found branch, whose
dict has no "message_ids" key. -/
structure PersistResult where
  status : String
  agent_id : String
  workflow_id : String
  persisted_count : Nat
  message_ids : Option (List String)
  storage : Option String
deriving DecidableEq, Repr

/-- Construction of one WorkingMemoryPersisted from a clean working-memory
dict wm, as written in MemoryService.persist_working_memory.  Notes kept
from the source: updated_at is metadata.get("updated_at") re-parsed with
strptime of the exact strftime format it was written with (identity at
this abstraction, and absent stays absent); the clean dict has no
top-level "created_at" key, so wm.get("created_at", datetime.utcnow())
always falls back to the promotion time; original_ttl is wm.get("ttl"). -/
def mkPersisted (wm : WMView) (now : Nat) : WorkingMemoryPersisted :=
  { agent_id := wm.agent_id
    memory := wm.memory
    message_id := wm.message_id
    run_id := wm.run_id
    workflow_id := wm.workflow_id
    stages := wm.stages
    current_stage := wm.current_stage
    context_log_summary := wm.context_log_summary
    user_query := wm.user_query
    created_at := now
    updated_at := wm.updated_at
    persisted_at := now
    original_ttl := some wm.ttl
    tags := []
    version := 1 }

/-- Dump each built WorkingMemoryPersisted with its fresh uuid4 storage id
(the i-th created document receives docIds i), in creation order. -/
def persistDocs (docIds : Nat → String) : List WorkingMemoryPersisted → Nat → List MongoDoc
  | [], _ => []
  | pm :: rest, i => pm.toDoc (docIds i) :: persistDocs docIds rest (i + 1)

/-- MemoryService.persist_working_memory (service.py lines 601-651): read
all working-memory records of the agent through get_many with the
workflow_id filter (pruning stale index entries as a side effect of that
read); if none, report no_memories_found; otherwise create one
working_persisted document per record and collect the message_ids.
docIds supplies the fresh uuid4 storage ids of the created documents. -/
def MemoryService.persist_working_memory (s : MemoryState) (a w : String) (now : Nat)
    (docIds : Nat → String) : PersistResult × MemoryState :=
  let b := getBucket s ShortTermType.working a
  let gm := ShortTermStore.get_many b none none (some w)
  let s1 : MemoryState := { s with redis := bset s.redis (ShortTermType.working, a) gm.2 }
  if gm.1 = [] then
    ({ status := "no_memories_found", agent_id := a, workflow_id := w
       persisted_count := 0, message_ids := none, storage := none }, s1)
  else
    let pms := gm.1.map (fun wm => mkPersisted wm now)
    let newDocs := persistDocs docIds pms 0
    let ids := gm.1.map WMView.message_id
    ({ status := "success", agent_id := a, workflow_id := w
       persisted_count := ids.length, message_ids := some ids
       storage := some "mongodb_working_persisted" },
     { s1 with mongo := { s1.mongo with
        working_persisted := s1.mongo.working_persisted ++ newDocs } })

/-- The working_persisted documents a step added to the durable store:
the suffix of the collection beyond what was there before the call. -/
def newWorkingPersistedDocs (before after : MongoState) : List MongoDoc :=
  after.working_persisted.drop before.working_persisted.length

/-- The live working-memory records that a persist call with the given
workflow_id argument actually promotes: the live documents of the bucket
that pass the get_many workflow filter (which is skipped when the
argument is the empty string). -/
def promotedSources (b : Bucket) (w : String) : List RedisDoc :=
  (liveDocs b).filter (fun d => passStrFilter (some w) d.workflow_id)

/-- The live working-memory records matching an (agent_id, workflow_id)
pair in the sense of the spec: those whose workflow_id field equals the
given workflow_id (the agent is fixed by the bucket). -/
def matchingPair (b : Bucket) (w : String) : List RedisDoc :=
  (liveDocs b).filter (fun d => d.workflow_id == some w)

/-- The five PATCH endpoints the API exposes, with the memory category each
one forces on the update it passes down (short_term.py: update_cache,
update_working; long_term.py: update_semantic, update_procedural,
update_working_persisted).  There is no PATCH route under /episodic. -/
def apiUpdateEndpoints : List (String × String) :=
  [("PATCH /short-term/cache", "cache"),
   ("PATCH /short-term/working", "working"),
   ("PATCH /long-term/semantic", "semantic"),
   ("PATCH /long-term/procedural", "procedural"),
   ("PATCH /long-term/working-persisted", "working_persisted")]

/-- The update_cache route (short_term.py lines 76-92): force memory_type
to cache, run the store update, and turn a None result into an
HTTPException with status 404; on success the response wraps the updated
record.  The Except error value is the HTTP status code. -/
def Routes.update_cache (s : MemoryState) (u : ShortTermMemoryUpdate) (now : Nat) :
    Except Nat RedisDoc × MemoryState :=
  let u2 := { u with memory_type := ShortTermType.cache }
  let b := getBucket s ShortTermType.cache u2.agent_id
  let r := ShortTermStore.update b u2 now
  let s2 : MemoryState := { s with redis := bset s.redis (ShortTermType.cache, u2.agent_id) r.2 }
  match r.1 with
  | none => (Except.error 404, s2)
  | some d => (Except.ok d, s2)

/-! Concrete states used to exercise the operations on the spec scenarios. -/

/-- An empty durable store. -/
def mongoEmpty : MongoState :=
  { semantic := [], episodic := [], procedural := [], working_persisted := [] }

/-- A cache record with payload {"k": "v1", "old": "x"}, as in the update
scenario of the spec. -/
def exDocCache : RedisDoc :=
  { id := "i1", agent_id := "a1", memory := [("k", "v1"), ("old", "x")]
    memory_type := ShortTermType.cache, ttl := 600, message_id := "m1"
    run_id := none, workflow_id := none, stages := [], current_stage := none
    context_log_summary := none, user_query := none, created_at := 0, updated_at := none }

/-- A cache bucket holding only exDocCache, live. -/
def exBucketCache : Bucket :=
  { index := ["i1"], primary := [("i1", { doc := exDocCache, exp := 600 })] }

/-- The update of the spec scenario: memory_updates {"k": "v2"} and
remove_keys ["old"] against exDocCache. -/
def exUpdateScenario : ShortTermMemoryUpdate :=
  { agent_id := "a1", message_id := "m1", memory_type := ShortTermType.cache
    memory_updates := [("k", "v2")], remove_keys := ["old"]
    workflow_id := none, stages := none, current_stage := none
    context_log_summary := none, user_query := none, ttl := none }

/-- An update supplying a new non-default TTL and touching nothing else. -/
def exUpdateTtl : ShortTermMemoryUpdate :=
  { agent_id := "a1", message_id := "m1", memory_type := ShortTermType.cache
    memory_updates := [], remove_keys := []
    workflow_id := none, stages := none, current_stage := none
    context_log_summary := none, user_query := none, ttl := some 1200 }

/-- An update whose key sits in both memory_updates and remove_keys. -/
def exUpdateBoth : ShortTermMemoryUpdate :=
  { agent_id := "a1", message_id := "m1", memory_type := ShortTermType.cache
    memory_updates := [("old", "y")], remove_keys := ["old"]
    workflow_id := none, stages := none, current_stage := none
    context_log_summary := none, user_query := none, ttl := none }

/-- A live working-memory record tagged with workflow "w1", updated at 7. -/
def exDocWork : RedisDoc :=
  { id := "i1", agent_id := "a1", memory := [("step", "1")]
    memory_type := ShortTermType.working, ttl := 600, message_id := "m1"
    run_id := some "r1", workflow_id := some "w1", stages := ["s1"]
    current_stage := some "c", context_log_summary := some "log"
    user_query := some "q", created_at := 3, updated_at := some 7 }

/-- A working bucket holding only exDocWork, live. -/
def exBucketWork : Bucket :=
  { index := ["i1"], primary := [("i1", { doc := exDocWork, exp := 600 })] }

/-- A system state whose only Redis keys are exBucketWork for
(working, "a1") and whose durable store is empty. -/
def exStateWork : MemoryState :=
  { redis := [((ShortTermType.working, "a1"), exBucketWork)], mongo := mongoEmpty }

/-- A working bucket whose index still lists the expired id "i0" next to
the live record exDocWork under "i1". -/
def exBucketStaleW : Bucket :=
  { index := ["i0", "i1"], primary := [("i1", { doc := exDocWork, exp := 600 })] }

/-- A system state holding exBucketStaleW for (working, "a1"). -/
def exStateStale : MemoryState :=
  { redis := [((ShortTermType.working, "a1"), exBucketStaleW)], mongo := mongoEmpty }

/-- A procedural durable document with payload {"k": "v1", "old": "x"}. -/
def exMongoDoc : MongoDoc :=
  { id := "d0", agent_id := "a1", memory := [("k", "v1"), ("old", "x")]
    memory_type := LongTermType.procedural, message_id := "m1"
    run_id := none, workflow_id := none, stages := none, current_stage := none
    context_log_summary := none, user_query := none, normalized_text := none
    subtype := some "tool_store", conversation_id := none, name := some "n"
    status := some "active", config := [], created_at := some 0, updated_at := none
    persisted_at := none, original_ttl := none, tags := none, version := some 1 }

/-- A durable store holding only exMongoDoc in the procedural partition. -/
def exMongoState : MongoState :=
  { semantic := [], episodic := [], procedural := [exMongoDoc], working_persisted := [] }

/-- A procedural update request against (a1, m1) with {"k": "v2"} /
remove "old". -/
def exLtUpdate : LongTermMemoryUpdateStorage :=
  { agent_id := "a1", message_id := "m1", memory_type := LongTermType.procedural
    memory_updates := [("k", "v2")], remove_keys := ["old"]
    normalized_text := none, subtype := none, conversation_id := none
    name := none, status := none, config_updates := none }

/-- A working_persisted update request against a store with no match. -/
def exWpUpdate : WorkingMemoryPersistedUpdate :=
  { agent_id := "a1", message_id := "zz"
    memory_updates := [], remove_keys := []
    workflow_id := none, stages := none, current_stage := none
    context_log_summary := none, user_query := none, tags := none }

/-- A procedural update request putting the key "old" in both
memory_updates and remove_keys (same path in $set and $unset). -/
def exLtUpdateOverlap : LongTermMemoryUpdateStorage :=
  { agent_id := "a1", message_id := "m1", memory_type := LongTermType.procedural
    memory_updates := [("old", "y")], remove_keys := ["old"]
    normalized_text := none, subtype := none, conversation_id := none
    name := none, status := none, config_updates := none }

/-! Association-list lemmas. -/

theorem alookup_aset_self {α : Type} (l : List (String × α)) (k : String) (v : α) :
    alookup (aset l k v) k = some v := by
  induction l with
  | nil => simp [aset, alookup]
  | cons p rest ih =>
    obtain ⟨k2, v2⟩ := p
    by_cases h : k2 = k
    · simp [aset, h, alookup]
    · simp [aset, h, alookup, ih]


theorem alookup_aset_ne {α : Type} (l : List (String × α)) (k : String) (v : α)
    (kq : String) (h : kq ≠ k) : alookup (aset l k v) kq = alookup l kq := by
  induction l with
  | nil =>
    simp only [aset, alookup]
    rw [if_neg (Ne.symm h)]
  | cons p rest ih =>
    obtain ⟨k2, v2⟩ := p
    by_cases h2 : k2 = k
    · subst h2
      simp only [aset, if_pos rfl, alookup]
      rw [if_neg (Ne.symm h), if_neg (Ne.symm h)]
    · simp only [aset, if_neg h2, alookup]
      by_cases h3 : k2 = kq
      · rw [if_pos h3, if_pos h3]
      · rw [if_neg h3, if_neg h3, ih]

theorem alookup_aerase_self {α : Type} (l : List (String × α)) (k : String) :
    alookup (aerase l k) k = none := by
  induction l with
  | nil => rfl
  | cons p rest ih =>
    obtain ⟨k2, v2⟩ := p
    by_cases h2 : k2 = k
    · simp [aerase, h2, ih]
    · simp [aerase, h2, alookup, ih]

theorem alookup_aerase_ne {α : Type} (l : List (String × α)) (k kq : String)
    (h : kq ≠ k) : alookup (aerase l k) kq = alookup l kq := by
  induction l with
  | nil => rfl
  | cons p rest ih =>
    obtain ⟨k2, v2⟩ := p
    by_cases h2 : k2 = k
    · subst h2
      have h3 : k2 ≠ kq := fun hh => h hh.symm
      simp [aerase, alookup, h3, ih]
    · simp only [aerase, if_neg h2, alookup]
      by_cases h3 : k2 = kq
      · simp [h3]
      · simp [h3, ih]

theorem alookup_aeraseAll_not_mem {α : Type} (ks : List String) (l : List (String × α))
    (k : String) (h : k ∉ ks) : alookup (aeraseAll l ks) k = alookup l k := by
  induction ks generalizing l with
  | nil => rfl
  | cons k0 ks ih =>
    have h0 : k ≠ k0 := fun hh => h (by simp [hh])
    have h1 : k ∉ ks := fun hh => h (by simp [hh])
    have step : aeraseAll l (k0 :: ks) = aeraseAll (aerase l k0) ks := rfl
    rw [step, ih _ h1, alookup_aerase_ne _ _ _ h0]

theorem alookup_aeraseAll_mem {α : Type} (ks : List String) (l : List (String × α))
    (k : String) (h : k ∈ ks) : alookup (aeraseAll l ks) k = none := by
  induction ks generalizing l with
  | nil => cases h
  | cons k0 ks ih =>
    have step : aeraseAll l (k0 :: ks) = aeraseAll (aerase l k0) ks := rfl
    rw [step]
    by_cases hk : k ∈ ks
    · exact ih _ hk
    · have h0 : k = k0 := by
        rcases List.mem_cons.mp h with h0 | h0
        · exact h0
        · exact absurd h0 hk
      rw [alookup_aeraseAll_not_mem ks _ k hk, h0, alookup_aerase_self]

theorem alookup_aupdate_not_mem {α : Type} (u l : List (String × α)) (k : String)
    (h : k ∉ u.map Prod.fst) : alookup (aupdate l u) k = alookup l k := by
  induction u generalizing l with
  | nil => rfl
  | cons p u ih =>
    have hne : p.1 ≠ k := fun hh => h (by simp [hh])
    have htail : k ∉ u.map Prod.fst := fun hh => h (by simp [hh])
    have step : aupdate l (p :: u) = aupdate (aset l p.1 p.2) u := rfl
    rw [step, ih _ htail, alookup_aset_ne _ _ _ _ (fun hh => hne hh.symm)]

/-! Characterization of the get_many read path. -/

theorem getManyAux_spec (p : List (String × RedisEntry)) (mid rid wid : Option String)
    (idx : List String) :
    getManyAux p mid rid wid idx =
      (((idx.filterMap (fun id => (alookup p id).map RedisEntry.doc)).filter
          (docPasses mid rid wid)).map viewOf,
       idx.filter (fun id => (alookup p id).isNone)) := by
  induction idx with
  | nil => rfl
  | cons id rest ih =>
    cases h : alookup p id with
    | none =>
      simp [getManyAux, h, ih, List.filter_cons, List.filterMap_cons]
    | some e =>
      by_cases hp : docPasses mid rid wid e.doc
      · simp [getManyAux, h, ih, hp, List.filter_cons, List.filterMap_cons]
      · simp [getManyAux, h, ih, hp, List.filter_cons, List.filterMap_cons]

theorem get_many_results (b : Bucket) (mid rid wid : Option String) :
    (ShortTermStore.get_many b mid rid wid).1 =
      ((liveDocs b).filter (docPasses mid rid wid)).map viewOf := by
  simp only [ShortTermStore.get_many, getManyAux_spec, liveDocs]
  split <;> rfl

theorem get_many_primary (b : Bucket) (mid rid wid : Option String) :
    (ShortTermStore.get_many b mid rid wid).2.primary = b.primary := by
  simp only [ShortTermStore.get_many]
  split <;> rfl

theorem get_many_index (b : Bucket) (mid rid wid : Option String) :
    (ShortTermStore.get_many b mid rid wid).2.index =
      b.index.filter (fun id => (alookup b.primary id).isSome) := by
  simp only [ShortTermStore.get_many, getManyAux_spec]
  split
  case isTrue hnil =>
    have hall : ∀ id ∈ b.index, ¬((alookup b.primary id).isNone = true) := by
      intro id hid
      exact (List.filter_eq_nil_iff.mp hnil) id hid
    have : b.index.filter (fun id => (alookup b.primary id).isSome) = b.index := by
      apply List.filter_eq_self.mpr
      intro id hid
      cases hl : alookup b.primary id with
      | none => exact absurd (by simp [hl]) (hall id hid)
      | some e => simp
    exact this.symm
  case isFalse hnil =>
    apply List.filter_congr
    intro id hid
    cases hl : alookup b.primary id with
    | none =>
      have hmem : id ∈ b.index.filter (fun i => (alookup b.primary i).isNone) :=
        List.mem_filter.mpr ⟨hid, by simp [hl]⟩
      have hc : (b.index.filter (fun i => (alookup b.primary i).isNone)).contains id = true :=
        List.elem_eq_true_of_mem hmem
      rw [hc]
      rfl
    | some e =>
      have hmem : id ∉ b.index.filter (fun i => (alookup b.primary i).isNone) := by
        intro hc2
        have := (List.mem_filter.mp hc2).2
        simp [hl] at this
      have hc : (b.index.filter (fun i => (alookup b.primary i).isNone)).contains id = false := by
        cases hcc : (b.index.filter (fun i => (alookup b.primary i).isNone)).contains id
        · rfl
        · exact absurd (List.mem_of_elem_eq_true hcc) hmem
      rw [hc]
      rfl

theorem filterMap_filter_isSome {α β : Type} (f : α → Option β) (p : α → Bool)
    (l : List α) (h : ∀ x, p x = (f x).isSome) :
    (l.filter p).filterMap f = l.filterMap f := by
  induction l with
  | nil => rfl
  | cons x rest ih =>
    cases hf : f x with
    | none =>
      have hp : p x = false := by rw [h, hf]; rfl
      simp [List.filter_cons, hp, List.filterMap_cons, hf, ih]
    | some y =>
      have hp : p x = true := by rw [h, hf]; rfl
      simp [List.filter_cons, hp, List.filterMap_cons, hf, ih]

theorem liveDocs_get_many (b : Bucket) (mid rid wid : Option String) :
    liveDocs (ShortTermStore.get_many b mid rid wid).2 = liveDocs b := by
  unfold liveDocs
  rw [get_many_index, get_many_primary]
  apply filterMap_filter_isSome
  intro id
  cases hl : alookup b.primary id <;> simp [hl]

theorem get_many_snd_of_no_prune (b : Bucket) (mid rid wid : Option String)
    (h : (getManyAux b.primary mid rid wid b.index).2 = []) :
    (ShortTermStore.get_many b mid rid wid).2 = b := by
  simp only [ShortTermStore.get_many]
  rw [if_pos h]

theorem get_many_prune_fixpoint (b : Bucket) (mid rid wid mid2 rid2 wid2 : Option String) :
    (ShortTermStore.get_many (ShortTermStore.get_many b mid rid wid).2 mid2 rid2 wid2).2 =
      (ShortTermStore.get_many b mid rid wid).2 := by
  have hidx := get_many_index b mid rid wid
  have hpr := get_many_primary b mid rid wid
  apply get_many_snd_of_no_prune
  rw [getManyAux_spec, hidx, hpr]
  apply List.filter_eq_nil_iff.mpr
  intro id hmem
  have := (List.mem_filter.mp hmem).2
  cases hl : alookup b.primary id
  · simp [hl] at this
  · simp [hl]

/-! Characterization of the update scan. -/

theorem findLive_eq_none (p : List (String × RedisEntry)) (mid : String) (idx : List String)
    (h : ∀ id ∈ idx, ∀ e, alookup p id = some e → e.doc.message_id ≠ mid) :
    findLive p mid idx = none := by
  induction idx with
  | nil => rfl
  | cons id rest ih =>
    have hrest : ∀ i ∈ rest, ∀ e, alookup p i = some e → e.doc.message_id ≠ mid := by
      intro i hi
      exact h i (List.mem_cons_of_mem _ hi)
    cases hl : alookup p id with
    | none => simp [findLive, hl, ih hrest]
    | some e =>
      have hne : e.doc.message_id ≠ mid := h id (List.mem_cons_self _ _) e hl
      simp [findLive, hl, hne, ih hrest]

theorem findLive_some (p : List (String × RedisEntry)) (mid : String) (idx : List String)
    (id : String) (e : RedisEntry) (h : findLive p mid idx = some (id, e)) :
    id ∈ idx ∧ alookup p id = some e ∧ e.doc.message_id = mid := by
  induction idx with
  | nil => cases h
  | cons id0 rest ih =>
    cases hl : alookup p id0 with
    | none =>
      simp only [findLive, hl] at h
      rcases ih h with ⟨h1, h2, h3⟩
      exact ⟨List.mem_cons_of_mem _ h1, h2, h3⟩
    | some e0 =>
      simp only [findLive, hl] at h
      by_cases hm : e0.doc.message_id = mid
      · rw [if_pos hm] at h
        obtain ⟨rfl, rfl⟩ : id0 = id ∧ e0 = e := by
          constructor <;> [exact congrArg Prod.fst (Option.some.inj h);
            exact congrArg Prod.snd (Option.some.inj h)]
        exact ⟨List.mem_cons_self _ _, hl, hm⟩
      · rw [if_neg hm] at h
        rcases ih h with ⟨h1, h2, h3⟩
        exact ⟨List.mem_cons_of_mem _ h1, h2, h3⟩

/-! Characterization of the durable update. -/

theorem find?_mapFirst (p : MongoDoc → Bool) (f : MongoDoc → MongoDoc) (l : List MongoDoc)
    (hpf : ∀ d, p d = true → p (f d) = true) :
    (mapFirst p f l).find? p = (l.find? p).map f := by
  induction l with
  | nil => rfl
  | cons d rest ih =>
    cases hd : p d with
    | true =>
      simp [mapFirst, hd, List.find?_cons_of_pos, hpf d hd]
    | false =>
      simp [mapFirst, hd, List.find?_cons_of_neg, ih]

theorem mongoMatches_applyLongTermUpdate (a mid : String) (d : MongoDoc)
    (u : LongTermMemoryUpdateStorage) (now : Nat) (h : mongoMatches a mid d = true) :
    mongoMatches a mid (applyLongTermUpdate d u now) = true := h

theorem mongoMatches_applyWPUpdate (a mid : String) (d : MongoDoc)
    (u : WorkingMemoryPersistedUpdate) (now : Nat) (h : mongoMatches a mid d = true) :
    mongoMatches a mid (applyWPUpdate d u now) = true := h

/-! Shape lemmas for the promotion pipeline. -/

theorem persistDocs_map_message_id (docIds : Nat → String)
    (pms : List WorkingMemoryPersisted) (i : Nat) :
    (persistDocs docIds pms i).map MongoDoc.message_id =
      pms.map WorkingMemoryPersisted.message_id := by
  induction pms generalizing i with
  | nil => rfl
  | cons pm rest ih => simp [persistDocs, WorkingMemoryPersisted.toDoc, ih]

theorem persistDocs_map_updated_at (docIds : Nat → String)
    (pms : List WorkingMemoryPersisted) (i : Nat) :
    (persistDocs docIds pms i).map MongoDoc.updated_at =
      pms.map WorkingMemoryPersisted.updated_at := by
  induction pms generalizing i with
  | nil => rfl
  | cons pm rest ih => simp [persistDocs, WorkingMemoryPersisted.toDoc, ih]

/-! Helper lemmas about the operations. -/

theorem blookup_bset_self (l : List ((ShortTermType × String) × Bucket))
    (k : ShortTermType × String) (v : Bucket) : blookup (bset l k v) k = some v := by
  induction l with
  | nil => simp [bset, blookup]
  | cons p rest ih =>
    obtain ⟨k2, v2⟩ := p
    by_cases h : k2 = k
    · simp [bset, h, blookup]
    · simp [bset, h, blookup, ih]

theorem blookup_bset_ne (l : List ((ShortTermType × String) × Bucket))
    (k : ShortTermType × String) (v : Bucket) (kq : ShortTermType × String)
    (h : kq ≠ k) : blookup (bset l k v) kq = blookup l kq := by
  induction l with
  | nil =>
    simp only [bset, blookup]
    rw [if_neg (Ne.symm h)]
  | cons p rest ih =>
    obtain ⟨k2, v2⟩ := p
    by_cases h2 : k2 = k
    · subst h2
      simp only [bset, if_pos rfl, blookup]
      rw [if_neg (Ne.symm h), if_neg (Ne.symm h)]
    · simp only [bset, if_neg h2, blookup]
      by_cases h3 : k2 = kq
      · rw [if_pos h3, if_pos h3]
      · rw [if_neg h3, if_neg h3, ih]

theorem short_update_found (b : Bucket) (u : ShortTermMemoryUpdate) (now : Nat)
    (id : String) (e : RedisEntry)
    (h : findLive b.primary u.message_id b.index = some (id, e)) :
    ShortTermStore.update b u now =
      (some (applyShortTermUpdate u e.doc now),
       { b with primary := aset b.primary id ⟨applyShortTermUpdate u e.doc now, chooseTtl u.ttl e.doc.ttl⟩ }) := by
  simp only [ShortTermStore.update, h]

theorem short_update_not_found (b : Bucket) (u : ShortTermMemoryUpdate) (now : Nat)
    (h : findLive b.primary u.message_id b.index = none) :
    ShortTermStore.update b u now = (none, b) := by
  simp only [ShortTermStore.update, h]

theorem applyShortTermUpdate_ttl (u : ShortTermMemoryUpdate) (d : RedisDoc) (now : Nat) :
    (applyShortTermUpdate u d now).ttl = d.ttl := by
  simp only [applyShortTermUpdate]
  split <;> rfl

theorem applyShortTermUpdate_updated_at (u : ShortTermMemoryUpdate) (d : RedisDoc) (now : Nat) :
    (applyShortTermUpdate u d now).updated_at = some now := by
  simp only [applyShortTermUpdate]
  split <;> rfl

theorem applyShortTermUpdate_memory (u : ShortTermMemoryUpdate) (d : RedisDoc) (now : Nat) :
    (applyShortTermUpdate u d now).memory =
      aeraseAll (aupdate d.memory u.memory_updates) u.remove_keys := by
  simp only [applyShortTermUpdate]
  split <;> rfl

theorem long_update_found (st : MongoState) (u : LongTermMemoryUpdateStorage) (now : Nat)
    (ex : MongoDoc)
    (h : (selectCol st u.memory_type).find? (mongoMatches u.agent_id u.message_id) = some ex) :
    LongTermStore.update st u now =
      (some (applyLongTermUpdate ex u now),
       setCol st u.memory_type
         (mapFirst (mongoMatches u.agent_id u.message_id)
           (fun d => applyLongTermUpdate d u now) (selectCol st u.memory_type))) := by
  simp only [LongTermStore.update, h]
  rw [find?_mapFirst _ _ _ (fun d hd => mongoMatches_applyLongTermUpdate _ _ d u now hd), h]
  rfl

theorem long_update_not_found (st : MongoState) (u : LongTermMemoryUpdateStorage) (now : Nat)
    (h : (selectCol st u.memory_type).find? (mongoMatches u.agent_id u.message_id) = none) :
    LongTermStore.update st u now = (none, st) := by
  simp only [LongTermStore.update, h]

theorem wp_update_not_found (st : MongoState) (u : WorkingMemoryPersistedUpdate) (now : Nat)
    (h : st.working_persisted.find? (mongoMatches u.agent_id u.message_id) = none) :
    LongTermStore.update_working_persisted st u now = (none, st) := by
  simp only [LongTermStore.update_working_persisted, h]

theorem find?_eq_none_of_all (l : List MongoDoc) (p : MongoDoc → Bool)
    (h : ∀ d ∈ l, p d = false) : l.find? p = none := by
  induction l with
  | nil => rfl
  | cons d rest ih =>
    rw [List.find?_cons_of_neg _ (by simp [h d (List.mem_cons_self _ _)])]
    exact ih (fun d2 hd2 => h d2 (List.mem_cons_of_mem _ hd2))

theorem docPasses_persist (w : String) (d : RedisDoc) :
    docPasses none none (some w) d = passStrFilter (some w) d.workflow_id := by
  simp [docPasses, passStrFilter]

theorem passStrFilter_ne_empty (w : String) (hw : w ≠ "") (v : Option String) :
    passStrFilter (some w) v = (v == some w) := by
  simp [passStrFilter, hw]

theorem persist_redis (s : MemoryState) (a w : String) (now : Nat) (docIds : Nat → String) :
    (MemoryService.persist_working_memory s a w now docIds).2.redis =
      bset s.redis (ShortTermType.working, a)
        (ShortTermStore.get_many (getBucket s ShortTermType.working a) none none (some w)).2 := by
  simp only [MemoryService.persist_working_memory]
  split <;> rfl

theorem persist_mongo (s : MemoryState) (a w : String) (now : Nat) (docIds : Nat → String) :
    (MemoryService.persist_working_memory s a w now docIds).2.mongo =
      (if (ShortTermStore.get_many (getBucket s ShortTermType.working a) none none (some w)).1 = []
       then s.mongo
       else { s.mongo with working_persisted := s.mongo.working_persisted ++ persistDocs docIds ((ShortTermStore.get_many (getBucket s ShortTermType.working a) none none (some w)).1.map (fun wm => mkPersisted wm now)) 0 }) := by
  simp only [MemoryService.persist_working_memory]
  split <;> rfl

theorem persist_views (b : Bucket) (w : String) :
    (ShortTermStore.get_many b none none (some w)).1 = (promotedSources b w).map viewOf := by
  rw [get_many_results]
  unfold promotedSources
  congr 1

theorem persist_result (s : MemoryState) (a w : String) (now : Nat) (docIds : Nat → String) :
    (MemoryService.persist_working_memory s a w now docIds).1 =
      (if (ShortTermStore.get_many (getBucket s ShortTermType.working a) none none (some w)).1 = []
       then { status := "no_memories_found", agent_id := a, workflow_id := w, persisted_count := 0, message_ids := none, storage := none }
       else { status := "success", agent_id := a, workflow_id := w,
              persisted_count := ((ShortTermStore.get_many (getBucket s ShortTermType.working a) none none (some w)).1.map WMView.message_id).length,
              message_ids := some ((ShortTermStore.get_many (getBucket s ShortTermType.working a) none none (some w)).1.map WMView.message_id),
              storage := some "mongodb_working_persisted" }) := by
  simp only [MemoryService.persist_working_memory]
  split <;> rfl

theorem promotedSources_eq_matching (b : Bucket) (w : String) (hw : w ≠ "") :
    promotedSources b w = matchingPair b w := by
  unfold promotedSources matchingPair
  exact List.filter_congr (fun d _ => passStrFilter_ne_empty w hw d.workflow_id)

/-! Claim theorems. -/

/-- C4: for every TTL-tier update call that finds its target record, the
stored ttl field of the rewritten record always equals the target's stored
ttl (so the field is changed only when the caller supplies a new,
non-default TTL - vacuously, as it is never changed), and the refreshed
key expiry equals the supplied ttl exactly when that ttl is positive and
different from the default 600, and the record's existing stored ttl value
in every other case (absent, zero, negative, or 600). -/
theorem claim_C4_update_ttl_policy (b : Bucket) (u : ShortTermMemoryUpdate) (now : Nat)
    (id : String) (e : RedisEntry)
    (h : findLive b.primary u.message_id b.index = some (id, e)) :
    ((ShortTermStore.update b u now).1.map RedisDoc.ttl = some e.doc.ttl) ∧
    (alookup (ShortTermStore.update b u now).2.primary id =
      some ⟨applyShortTermUpdate u e.doc now,
        match u.ttl with
        | none => e.doc.ttl
        | some t => if 0 < t ∧ t ≠ 600 then t else e.doc.ttl⟩) := by
  rw [short_update_found b u now id e h]
  refine ⟨?_, ?_⟩
  · show (some (applyShortTermUpdate u e.doc now)).map RedisDoc.ttl = some e.doc.ttl
    rw [Option.map_some']
    rw [applyShortTermUpdate_ttl]
  · show alookup (aset b.primary id ⟨applyShortTermUpdate u e.doc now, chooseTtl u.ttl e.doc.ttl⟩) id = _
    rw [alookup_aset_self]
    cases u.ttl with
    | none => rfl
    | some t =>
      have hiff : (t ≠ 0 ∧ t > 0 ∧ t ≠ 600) ↔ (0 < t ∧ t ≠ 600) := by
        constructor
        · rintro ⟨h1, h2, h3⟩
          exact ⟨h2, h3⟩
        · rintro ⟨h1, h2⟩
          exact ⟨by omega, h1, h2⟩
      simp only [chooseTtl]
      by_cases hc : 0 < t ∧ t ≠ 600
      · rw [if_pos (hiff.mpr hc)]
        simp [hc]
      · rw [if_neg (fun hx => hc (hiff.mp hx))]
        simp [hc]

/-- Witness for C4 at a concrete record with a supplied ttl of 1200. -/
theorem claim_C4_witness :
    ((ShortTermStore.update exBucketCache exUpdateTtl 9).1.map RedisDoc.ttl = some exDocCache.ttl) ∧
    (alookup (ShortTermStore.update exBucketCache exUpdateTtl 9).2.primary "i1" =
      some ⟨applyShortTermUpdate exUpdateTtl exDocCache 9,
        match exUpdateTtl.ttl with
        | none => exDocCache.ttl
        | some t => if 0 < t ∧ t ≠ 600 then t else exDocCache.ttl⟩) :=
  claim_C4_update_ttl_policy exBucketCache exUpdateTtl 9 "i1" ⟨exDocCache, 600⟩ (by decide)

/-- C10: every successful TTL-tier update (even one whose memory_updates and
remove_keys are empty and which changes no field value) returns the
rewritten record, stamps its updated_at with the current time, and re-SETs
the primary key - with the retained-or-new expiry - so the record's
remaining lifetime is extended and it is marked updated. -/
theorem claim_C10_update_refreshes (b : Bucket) (u : ShortTermMemoryUpdate) (now : Nat)
    (id : String) (e : RedisEntry)
    (h : findLive b.primary u.message_id b.index = some (id, e)) :
    ((ShortTermStore.update b u now).1 = some (applyShortTermUpdate u e.doc now)) ∧
    ((applyShortTermUpdate u e.doc now).updated_at = some now) ∧
    ((ShortTermStore.update b u now).2.primary =
      aset b.primary id ⟨applyShortTermUpdate u e.doc now, chooseTtl u.ttl e.doc.ttl⟩) := by
  rw [short_update_found b u now id e h]
  exact ⟨rfl, applyShortTermUpdate_updated_at u e.doc now, rfl⟩

/-- Witness for C10 with empty memory_updates and remove_keys. -/
theorem claim_C10_witness :
    ((ShortTermStore.update exBucketCache exUpdateTtl 9).1 =
      some (applyShortTermUpdate exUpdateTtl exDocCache 9)) ∧
    ((applyShortTermUpdate exUpdateTtl exDocCache 9).updated_at = some 9) ∧
    ((ShortTermStore.update exBucketCache exUpdateTtl 9).2.primary =
      aset exBucketCache.primary "i1"
        ⟨applyShortTermUpdate exUpdateTtl exDocCache 9, chooseTtl exUpdateTtl.ttl exDocCache.ttl⟩) :=
  claim_C10_update_refreshes exBucketCache exUpdateTtl 9 "i1" ⟨exDocCache, 600⟩ (by decide)

/-- C9: in the TTL-tier update, when the same key appears both in
memory_updates and in remove_keys, removal wins - the resulting payload of
the rewritten record lacks the key, because the removal loop runs after
the dict update. -/
theorem claim_C9_removal_wins (b : Bucket) (u : ShortTermMemoryUpdate) (now : Nat)
    (id : String) (e : RedisEntry) (k v : String)
    (h : findLive b.primary u.message_id b.index = some (id, e))
    (hk : k ∈ u.remove_keys) (_hv : (k, v) ∈ u.memory_updates) :
    (ShortTermStore.update b u now).1.map (fun d => alookup d.memory k) = some none := by
  rw [short_update_found b u now id e h]
  show (some (applyShortTermUpdate u e.doc now)).map (fun d => alookup d.memory k) = some none
  rw [Option.map_some']
  rw [applyShortTermUpdate_memory, alookup_aeraseAll_mem _ _ _ hk]

/-- Witness for C9 with the key "old" updated and removed at once. -/
theorem claim_C9_witness :
    (ShortTermStore.update exBucketCache exUpdateBoth 9).1.map
      (fun d => alookup d.memory "old") = some none :=
  claim_C9_removal_wins exBucketCache exUpdateBoth 9 "i1" ⟨exDocCache, 600⟩ "old" "y"
    (by decide) (by decide) (by decide)

/-- C5 (amended): partial-update semantics.  On the TTL tier, for every
update call that finds its target: the returned record is the transformed
one, every key in remove_keys is absent from the resulting payload, and
every key in neither remove_keys nor memory_updates keeps its prior value.
On the durable tier the same holds for every update call whose touched
keys are dot-free and which shares no key between memory_updates and
remove_keys - under those provisos the accepted update equals the flat
transformation - while an update sharing such a key is rejected whole by
the backing store with a path-conflict error and modifies nothing.  The
concrete scenario (cache payload {"k": "v1", "old": "x"}, updates
{"k": "v2"}, remove ["old"]) yields exactly {"k": "v2"}. -/
theorem claim_C5_amended_partial_update :
    (∀ (b : Bucket) (u : ShortTermMemoryUpdate) (now : Nat) (id : String) (e : RedisEntry),
      findLive b.primary u.message_id b.index = some (id, e) →
      (ShortTermStore.update b u now).1 = some (applyShortTermUpdate u e.doc now)) ∧
    (∀ (u : ShortTermMemoryUpdate) (d : RedisDoc) (now : Nat) (k : String),
      k ∈ u.remove_keys → alookup (applyShortTermUpdate u d now).memory k = none) ∧
    (∀ (u : ShortTermMemoryUpdate) (d : RedisDoc) (now : Nat) (k : String),
      k ∉ u.remove_keys → k ∉ u.memory_updates.map Prod.fst →
      alookup (applyShortTermUpdate u d now).memory k = alookup d.memory k) ∧
    (∀ (st : MongoState) (u : LongTermMemoryUpdateStorage) (now : Nat) (ex : MongoDoc),
      (selectCol st u.memory_type).find? (mongoMatches u.agent_id u.message_id) = some ex →
      (mongoTouchedKeys u).all plainKey = true →
      mongoMemConflict u = false →
      LongTermStore.update_checked st u now =
        (MongoUpdateResult.updated (applyLongTermUpdate ex u now),
         some (setCol st u.memory_type (mapFirst (mongoMatches u.agent_id u.message_id)
           (fun d => applyLongTermUpdate d u now) (selectCol st u.memory_type))))) ∧
    (∀ (u : LongTermMemoryUpdateStorage) (ex : MongoDoc) (now : Nat) (k : String),
      (mongoTouchedKeys u).all plainKey = true →
      mongoMemConflict u = false →
      k ∈ u.remove_keys → alookup (applyLongTermUpdate ex u now).memory k = none) ∧
    (∀ (u : LongTermMemoryUpdateStorage) (ex : MongoDoc) (now : Nat) (k : String),
      (mongoTouchedKeys u).all plainKey = true →
      mongoMemConflict u = false →
      k ∉ u.remove_keys → k ∉ u.memory_updates.map Prod.fst →
      alookup (applyLongTermUpdate ex u now).memory k = alookup ex.memory k) ∧
    (∀ (st : MongoState) (u : LongTermMemoryUpdateStorage) (now : Nat) (ex : MongoDoc),
      (selectCol st u.memory_type).find? (mongoMatches u.agent_id u.message_id) = some ex →
      (mongoTouchedKeys u).all plainKey = true →
      mongoMemConflict u = true →
      LongTermStore.update_checked st u now = (MongoUpdateResult.pathConflict, some st)) ∧
    ((ShortTermStore.update exBucketCache exUpdateScenario 9).1.map RedisDoc.memory =
      some [("k", "v2")]) := by
  refine ⟨?_, ?_, ?_, ?_, ?_, ?_, ?_, ?_⟩
  · intro b u now id e h
    rw [short_update_found b u now id e h]
  · intro u d now k hk
    rw [applyShortTermUpdate_memory, alookup_aeraseAll_mem _ _ _ hk]
  · intro u d now k hk hku
    rw [applyShortTermUpdate_memory, alookup_aeraseAll_not_mem _ _ _ hk,
      alookup_aupdate_not_mem _ _ _ hku]
  · intro st u now ex h hplain hconf
    simp only [LongTermStore.update_checked, h]
    rw [if_pos hplain, if_neg (by rw [hconf]; exact Bool.false_ne_true)]
  · intro u ex now k _hplain _hconf hk
    show alookup (aeraseAll (aupdate ex.memory u.memory_updates) u.remove_keys) k = none
    rw [alookup_aeraseAll_mem _ _ _ hk]
  · intro u ex now k _hplain _hconf hk hku
    show alookup (aeraseAll (aupdate ex.memory u.memory_updates) u.remove_keys) k =
      alookup ex.memory k
    rw [alookup_aeraseAll_not_mem _ _ _ hk, alookup_aupdate_not_mem _ _ _ hku]
  · intro st u now ex h hplain hconf
    simp only [LongTermStore.update_checked, h]
    rw [if_pos hplain, if_pos hconf]
  · decide

/-- Counterexample to C5 as stated: the durable-tier update putting "old"
in both memory_updates and remove_keys places the path memory.old in both
$set and $unset of one update document; MongoDB rejects it with a path
conflict, nothing is written, and the stored payload still contains "old"
- where the claim requires the resulting payload to lack it. -/
theorem claim_C5_counterexample :
    ("old" ∈ exLtUpdateOverlap.remove_keys) ∧
    (LongTermStore.update_checked exMongoState exLtUpdateOverlap 9 =
      (MongoUpdateResult.pathConflict, some exMongoState)) ∧
    (alookup exMongoDoc.memory "old" = some "x") := by
  decide

/-- Witness for the amended C5 at the concrete scenario records on both
tiers, including the conflict rejection. -/
theorem claim_C5_witness :
    ((ShortTermStore.update exBucketCache exUpdateScenario 9).1 =
      some (applyShortTermUpdate exUpdateScenario exDocCache 9)) ∧
    (alookup (applyShortTermUpdate exUpdateScenario exDocCache 9).memory "old" = none) ∧
    (alookup (applyShortTermUpdate exUpdateScenario exDocCache 9).memory "zz" =
      alookup exDocCache.memory "zz") ∧
    (LongTermStore.update_checked exMongoState exLtUpdate 9 =
      (MongoUpdateResult.updated (applyLongTermUpdate exMongoDoc exLtUpdate 9),
       some (setCol exMongoState LongTermType.procedural
         (mapFirst (mongoMatches "a1" "m1")
           (fun d => applyLongTermUpdate d exLtUpdate 9)
           (selectCol exMongoState LongTermType.procedural))))) ∧
    (alookup (applyLongTermUpdate exMongoDoc exLtUpdate 9).memory "old" = none) ∧
    (alookup (applyLongTermUpdate exMongoDoc exLtUpdate 9).memory "zz" =
      alookup exMongoDoc.memory "zz") ∧
    (LongTermStore.update_checked exMongoState exLtUpdateOverlap 9 =
      (MongoUpdateResult.pathConflict, some exMongoState)) := by
  have h := claim_C5_amended_partial_update
  exact ⟨h.1 exBucketCache exUpdateScenario 9 "i1" ⟨exDocCache, 600⟩ (by decide),
         h.2.1 exUpdateScenario exDocCache 9 "old" (by decide),
         h.2.2.1 exUpdateScenario exDocCache 9 "zz" (by decide) (by decide),
         h.2.2.2.1 exMongoState exLtUpdate 9 exMongoDoc (by decide) (by decide) (by decide),
         h.2.2.2.2.1 exLtUpdate exMongoDoc 9 "old" (by decide) (by decide) (by decide),
         h.2.2.2.2.2.1 exLtUpdate exMongoDoc 9 "zz" (by decide) (by decide) (by decide) (by decide),
         h.2.2.2.2.2.2.1 exMongoState exLtUpdateOverlap 9 exMongoDoc (by decide) (by decide) (by decide)⟩

/-- C8: an update call on either tier that targets an (agent_id, message_id)
pair with no matching stored record returns the defined not-found result
(None) and leaves every stored record in every tier untouched; the API
route surfaces the None as an HTTP 404. -/
theorem claim_C8_not_found_semantics :
    (∀ (b : Bucket) (u : ShortTermMemoryUpdate) (now : Nat),
      (∀ id ∈ b.index, ∀ e, alookup b.primary id = some e →
        e.doc.message_id ≠ u.message_id) →
      ShortTermStore.update b u now = (none, b)) ∧
    (∀ (st : MongoState) (u : LongTermMemoryUpdateStorage) (now : Nat),
      (∀ d ∈ selectCol st u.memory_type,
        ¬(d.agent_id = u.agent_id ∧ d.message_id = u.message_id)) →
      LongTermStore.update st u now = (none, st)) ∧
    (∀ (st : MongoState) (u : WorkingMemoryPersistedUpdate) (now : Nat),
      (∀ d ∈ st.working_persisted,
        ¬(d.agent_id = u.agent_id ∧ d.message_id = u.message_id)) →
      LongTermStore.update_working_persisted st u now = (none, st)) ∧
    (∀ (s : MemoryState) (u : ShortTermMemoryUpdate) (now : Nat),
      (∀ id ∈ (getBucket s ShortTermType.cache u.agent_id).index, ∀ e,
        alookup (getBucket s ShortTermType.cache u.agent_id).primary id = some e →
        e.doc.message_id ≠ u.message_id) →
      (Routes.update_cache s u now).1 = Except.error 404 ∧
      (Routes.update_cache s u now).2.mongo = s.mongo ∧
      (∀ (t : ShortTermType) (a2 : String),
        getBucket (Routes.update_cache s u now).2 t a2 = getBucket s t a2)) := by
  have hmongo : ∀ (l : List MongoDoc) (a mid : String),
      (∀ d ∈ l, ¬(d.agent_id = a ∧ d.message_id = mid)) →
      l.find? (mongoMatches a mid) = none := by
    intro l a mid hl
    apply find?_eq_none_of_all
    intro d hd
    have := hl d hd
    simp only [mongoMatches]
    rw [Bool.and_eq_false_iff]
    by_cases ha : d.agent_id = a
    · right
      rw [beq_eq_false_iff_ne]
      intro hm
      exact this ⟨ha, hm⟩
    · left
      rw [beq_eq_false_iff_ne]
      exact ha
  refine ⟨?_, ?_, ?_, ?_⟩
  · intro b u now hno
    exact short_update_not_found b u now (findLive_eq_none _ _ _ hno)
  · intro st u now hno
    exact long_update_not_found st u now (hmongo _ _ _ hno)
  · intro st u now hno
    exact wp_update_not_found st u now (hmongo _ _ _ hno)
  · intro s u now hno
    have hfl : findLive (getBucket s ShortTermType.cache u.agent_id).primary
        u.message_id (getBucket s ShortTermType.cache u.agent_id).index = none :=
      findLive_eq_none _ _ _ hno
    have hupd : ShortTermStore.update (getBucket s ShortTermType.cache u.agent_id)
        { u with memory_type := ShortTermType.cache } now =
        (none, getBucket s ShortTermType.cache u.agent_id) :=
      short_update_not_found _ _ _ hfl
    refine ⟨?_, ?_, ?_⟩
    · simp only [Routes.update_cache, hupd]
    · simp only [Routes.update_cache]
      split <;> rfl
    · intro t a2
      simp only [Routes.update_cache, hupd]
      show (blookup (bset s.redis (ShortTermType.cache, u.agent_id)
        (getBucket s ShortTermType.cache u.agent_id)) (t, a2)).getD
          { index := [], primary := [] } = getBucket s t a2
      by_cases hk : (t, a2) = (ShortTermType.cache, u.agent_id)
      · obtain ⟨ht, ha⟩ := Prod.mk.inj hk
        subst ht
        subst ha
        rw [blookup_bset_self]
        rfl
      · rw [blookup_bset_ne _ _ _ _ hk]
        rfl

/-- Witness for C8 on empty / mismatching stores. -/
theorem claim_C8_witness :
    (ShortTermStore.update { index := [], primary := [] } exUpdateScenario 5 =
      (none, { index := [], primary := [] })) ∧
    (LongTermStore.update mongoEmpty exLtUpdate 5 = (none, mongoEmpty)) ∧
    (LongTermStore.update_working_persisted exMongoState exWpUpdate 5 =
      (none, exMongoState)) ∧
    ((Routes.update_cache exStateWork exUpdateScenario 5).1 = Except.error 404) := by
  have h := claim_C8_not_found_semantics
  refine ⟨?_, ?_, ?_, ?_⟩
  · exact h.1 { index := [], primary := [] } exUpdateScenario 5
      (fun id hid => absurd hid (List.not_mem_nil id))
  · exact h.2.1 mongoEmpty exLtUpdate 5 (fun d hd => absurd hd (List.not_mem_nil d))
  · exact h.2.2.1 exMongoState exWpUpdate 5 (fun d hd => absurd hd (List.not_mem_nil d))
  · exact (h.2.2.2 exStateWork exUpdateScenario 5
      (fun id hid => absurd hid (List.not_mem_nil id))).1

/-- C6: a record whose TTL has elapsed (its primary value is gone while its
id is still indexed) is never part of the get_many result - the results
are exactly the views of the live, filter-passing records - its id is
dropped from the index by the read, and a second get_many on the resulting
bucket (with any filters) prunes nothing further. -/
theorem claim_C6_lazy_prune_idempotent (b : Bucket) (mid rid wid : Option String)
    (id : String) (_h1 : id ∈ b.index) (h2 : alookup b.primary id = none) :
    ((ShortTermStore.get_many b mid rid wid).1 =
      ((liveDocs b).filter (docPasses mid rid wid)).map viewOf) ∧
    (id ∉ (ShortTermStore.get_many b mid rid wid).2.index) ∧
    (∀ (mid2 rid2 wid2 : Option String),
      (ShortTermStore.get_many (ShortTermStore.get_many b mid rid wid).2 mid2 rid2 wid2).2 =
        (ShortTermStore.get_many b mid rid wid).2) := by
  refine ⟨get_many_results b mid rid wid, ?_,
    fun mid2 rid2 wid2 => get_many_prune_fixpoint b mid rid wid mid2 rid2 wid2⟩
  rw [get_many_index]
  intro hc
  have := (List.mem_filter.mp hc).2
  simp [h2] at this

/-- Witness for C6 on a bucket with the stale indexed id "i0". -/
theorem claim_C6_witness :
    ((ShortTermStore.get_many exBucketStaleW none none none).1 =
      ((liveDocs exBucketStaleW).filter (docPasses none none none)).map viewOf) ∧
    ("i0" ∉ (ShortTermStore.get_many exBucketStaleW none none none).2.index) ∧
    (∀ (mid2 rid2 wid2 : Option String),
      (ShortTermStore.get_many (ShortTermStore.get_many exBucketStaleW none none none).2
          mid2 rid2 wid2).2 =
        (ShortTermStore.get_many exBucketStaleW none none none).2) :=
  claim_C6_lazy_prune_idempotent exBucketStaleW none none none "i0" (by decide) (by decide)

/-- C7: episodic records are never mutated - the API exposes no update
endpoint forcing the episodic category, every durable update whose
memory_type is not episodic leaves the lt_episodic partition untouched,
the working_persisted update never touches lt_episodic, and the TTL-tier
update route leaves the whole durable store untouched; so no exposed
update path can alter an episodic record between its creation and its
deletion. -/
theorem claim_C7_episodic_immutable :
    ("episodic" ∉ apiUpdateEndpoints.map Prod.snd) ∧
    (∀ (st : MongoState) (u : LongTermMemoryUpdateStorage) (now : Nat),
      u.memory_type ≠ LongTermType.episodic →
      (LongTermStore.update st u now).2.episodic = st.episodic) ∧
    (∀ (st : MongoState) (u : WorkingMemoryPersistedUpdate) (now : Nat),
      (LongTermStore.update_working_persisted st u now).2.episodic = st.episodic) ∧
    (∀ (s : MemoryState) (u : ShortTermMemoryUpdate) (now : Nat),
      (Routes.update_cache s u now).2.mongo = s.mongo) := by
  refine ⟨by decide, ?_, ?_, ?_⟩
  · intro st u now h
    cases hf : (selectCol st u.memory_type).find? (mongoMatches u.agent_id u.message_id) with
    | none =>
      rw [long_update_not_found st u now hf]
    | some ex =>
      rw [long_update_found st u now ex hf]
      cases hm : u.memory_type with
      | episodic => exact absurd hm h
      | semantic => rfl
      | procedural => rfl
      | working_persisted => rfl
  · intro st u now
    cases hf : st.working_persisted.find? (mongoMatches u.agent_id u.message_id) with
    | none =>
      rw [wp_update_not_found st u now hf]
    | some ex =>
      simp only [LongTermStore.update_working_persisted, hf]
  · intro s u now
    simp only [Routes.update_cache]
    split <;> rfl

/-- Witness for C7 at a concrete procedural update. -/
theorem claim_C7_witness :
    (LongTermStore.update exMongoState exLtUpdate 9).2.episodic = exMongoState.episodic :=
  claim_C7_episodic_immutable.2.1 exMongoState exLtUpdate 9 (by decide)

/-- C2: promotion preserves updated_at - the working_persisted documents a
persist call appends carry, position by position, exactly the updated_at
values of the live working-memory records it read (a record updated at T
yields a document with updated_at = T, and a record never updated yields a
document with no updated_at field), and the same positions carry the same
message_ids, so each document corresponds to its source record. -/
theorem claim_C2_promotion_preserves_updated_at (s : MemoryState) (a w : String)
    (now : Nat) (docIds : Nat → String) :
    ((newWorkingPersistedDocs s.mongo
        (MemoryService.persist_working_memory s a w now docIds).2.mongo).map MongoDoc.updated_at =
      (promotedSources (getBucket s ShortTermType.working a) w).map RedisDoc.updated_at) ∧
    ((newWorkingPersistedDocs s.mongo
        (MemoryService.persist_working_memory s a w now docIds).2.mongo).map MongoDoc.message_id =
      (promotedSources (getBucket s ShortTermType.working a) w).map RedisDoc.message_id) := by
  unfold newWorkingPersistedDocs
  rw [persist_mongo]
  by_cases hnil : (ShortTermStore.get_many (getBucket s ShortTermType.working a) none none
      (some w)).1 = []
  · rw [if_pos hnil]
    have hsrc : promotedSources (getBucket s ShortTermType.working a) w = [] := by
      have hv := persist_views (getBucket s ShortTermType.working a) w
      rw [hnil] at hv
      exact List.map_eq_nil_iff.mp hv.symm
    rw [hsrc]
    simp [List.drop_length]
  · rw [if_neg hnil]
    constructor
    · show ((s.mongo.working_persisted ++ persistDocs docIds
          ((ShortTermStore.get_many (getBucket s ShortTermType.working a) none none
            (some w)).1.map (fun wm => mkPersisted wm now)) 0).drop
          s.mongo.working_persisted.length).map MongoDoc.updated_at = _
      rw [List.drop_left, persistDocs_map_updated_at, persist_views, List.map_map, List.map_map]
      rfl
    · show ((s.mongo.working_persisted ++ persistDocs docIds
          ((ShortTermStore.get_many (getBucket s ShortTermType.working a) none none
            (some w)).1.map (fun wm => mkPersisted wm now)) 0).drop
          s.mongo.working_persisted.length).map MongoDoc.message_id = _
      rw [List.drop_left, persistDocs_map_message_id, persist_views, List.map_map, List.map_map]
      rfl

/-- C3: persist never deletes or modifies the source records - the working
bucket's primary entries are exactly as before, its live documents are
unchanged (every promoted record is still retrievable until its TTL
expires), the only index entries removed are stale ones whose primary
value had already expired, and every other (memory_type, agent) bucket is
untouched. -/
theorem claim_C3_persist_is_additive (s : MemoryState) (a w : String) (now : Nat)
    (docIds : Nat → String) :
    ((getBucket (MemoryService.persist_working_memory s a w now docIds).2
        ShortTermType.working a).primary = (getBucket s ShortTermType.working a).primary) ∧
    (liveDocs (getBucket (MemoryService.persist_working_memory s a w now docIds).2
        ShortTermType.working a) = liveDocs (getBucket s ShortTermType.working a)) ∧
    (∀ id, id ∈ (getBucket s ShortTermType.working a).index →
      id ∉ (getBucket (MemoryService.persist_working_memory s a w now docIds).2
        ShortTermType.working a).index →
      alookup (getBucket s ShortTermType.working a).primary id = none) ∧
    (∀ (t : ShortTermType) (a2 : String), (t, a2) ≠ (ShortTermType.working, a) →
      getBucket (MemoryService.persist_working_memory s a w now docIds).2 t a2 =
        getBucket s t a2) := by
  have hred := persist_redis s a w now docIds
  have hb : getBucket (MemoryService.persist_working_memory s a w now docIds).2
      ShortTermType.working a =
      (ShortTermStore.get_many (getBucket s ShortTermType.working a) none none (some w)).2 := by
    show (blookup (MemoryService.persist_working_memory s a w now docIds).2.redis
      (ShortTermType.working, a)).getD { index := [], primary := [] } = _
    rw [hred, blookup_bset_self]
    rfl
  refine ⟨?_, ?_, ?_, ?_⟩
  · rw [hb, get_many_primary]
  · rw [hb, liveDocs_get_many]
  · intro id hin hout
    rw [hb, get_many_index] at hout
    cases hl : alookup (getBucket s ShortTermType.working a).primary id with
    | none => rfl
    | some e => exact absurd (List.mem_filter.mpr ⟨hin, by simp [hl]⟩) hout
  · intro t a2 hk
    show (blookup (MemoryService.persist_working_memory s a w now docIds).2.redis
      (t, a2)).getD { index := [], primary := [] } = _
    rw [hred, blookup_bset_ne _ _ _ _ hk]
    rfl

/-- Witness for C3 at a concrete state with a stale index entry. -/
theorem claim_C3_witness :
    (alookup (getBucket exStateStale ShortTermType.working "a1").primary "i0" = none) ∧
    (getBucket (MemoryService.persist_working_memory exStateStale "a1" "w1" 0
        (fun _ => "d1")).2 ShortTermType.cache "a1" =
      getBucket exStateStale ShortTermType.cache "a1") := by
  have h := claim_C3_persist_is_additive exStateStale "a1" "w1" 0 (fun _ => "d1")
  refine ⟨?_, h.2.2.2 ShortTermType.cache "a1" (by decide)⟩
  exact h.2.2.1 "i0" (by decide) (by decide)

/-- C1 (amended): for every persist call whose workflow_id is nonempty, the
returned message_ids are exactly those of the live working-memory records
whose workflow_id equals the argument (the records matching the
(agent_id, workflow_id) pair at call time), and the documents created in
the working-memory-persisted partition carry, position by position, the
same message_ids as those source records.  (As stated the claim also
covered workflow_id = "", where the get_many filter is skipped and records
of other workflows are promoted too - see the counterexample.) -/
theorem claim_C1_amended_persist_identity (s : MemoryState) (a w : String) (now : Nat)
    (docIds : Nat → String) (hw : w ≠ "") :
    ((MemoryService.persist_working_memory s a w now docIds).1.message_ids.getD [] =
      (matchingPair (getBucket s ShortTermType.working a) w).map RedisDoc.message_id) ∧
    ((newWorkingPersistedDocs s.mongo
        (MemoryService.persist_working_memory s a w now docIds).2.mongo).map MongoDoc.message_id =
      (matchingPair (getBucket s ShortTermType.working a) w).map RedisDoc.message_id) := by
  have hpm := promotedSources_eq_matching (getBucket s ShortTermType.working a) w hw
  have hv := persist_views (getBucket s ShortTermType.working a) w
  rw [hpm] at hv
  constructor
  · rw [persist_result]
    by_cases hnil : (ShortTermStore.get_many (getBucket s ShortTermType.working a) none none
        (some w)).1 = []
    · rw [if_pos hnil]
      have hsrc : matchingPair (getBucket s ShortTermType.working a) w = [] := by
        rw [hnil] at hv
        exact List.map_eq_nil_iff.mp hv.symm
      rw [hsrc]
      rfl
    · rw [if_neg hnil]
      show (ShortTermStore.get_many (getBucket s ShortTermType.working a) none none
        (some w)).1.map WMView.message_id = _
      rw [hv, List.map_map]
      rfl
  · unfold newWorkingPersistedDocs
    rw [persist_mongo]
    by_cases hnil : (ShortTermStore.get_many (getBucket s ShortTermType.working a) none none
        (some w)).1 = []
    · rw [if_pos hnil]
      have hsrc : matchingPair (getBucket s ShortTermType.working a) w = [] := by
        rw [hnil] at hv
        exact List.map_eq_nil_iff.mp hv.symm
      rw [hsrc]
      simp [List.drop_length]
    · rw [if_neg hnil]
      show ((s.mongo.working_persisted ++ persistDocs docIds
          ((ShortTermStore.get_many (getBucket s ShortTermType.working a) none none
            (some w)).1.map (fun wm => mkPersisted wm now)) 0).drop
          s.mongo.working_persisted.length).map MongoDoc.message_id = _
      rw [List.drop_left, persistDocs_map_message_id, hv, List.map_map, List.map_map]
      rfl

/-- Counterexample to C1 as stated: at workflow_id = "" the get_many
workflow filter is skipped, so persist("a1", "") returns ["m1"] although
the only live record carries workflow_id "w1" and thus no record matches
the pair ("a1", ""). -/
theorem claim_C1_counterexample :
    ¬((MemoryService.persist_working_memory exStateWork "a1" "" 0
        (fun _ => "d1")).1.message_ids.getD [] =
      (matchingPair (getBucket exStateWork ShortTermType.working "a1") "").map
        RedisDoc.message_id) := by
  decide

/-- Witness for the amended C1 at the nonempty workflow "w1". -/
theorem claim_C1_witness :
    ((MemoryService.persist_working_memory exStateWork "a1" "w1" 0
        (fun _ => "d1")).1.message_ids.getD [] =
      (matchingPair (getBucket exStateWork ShortTermType.working "a1") "w1").map
        RedisDoc.message_id) ∧
    ((newWorkingPersistedDocs exStateWork.mongo
        (MemoryService.persist_working_memory exStateWork "a1" "w1" 0
          (fun _ => "d1")).2.mongo).map MongoDoc.message_id =
      (matchingPair (getBucket exStateWork ShortTermType.working "a1") "w1").map
        RedisDoc.message_id) :=
  claim_C1_amended_persist_identity exStateWork "a1" "w1" 0 (fun _ => "d1") (by decide)
